import Mathlib

/-!
Shallow embedding of the `warp-rate-limit` crate core
(`src/lib.rs`, `src/config.rs`, `src/error.rs`).

Modelling conventions:
* `std::time::Instant` and `std::time::Duration` are modelled as `Nat`
  nanosecond counts.  `Instant::duration_since` saturates to zero when the
  argument is later (Rust >= 1.60 semantics), which is exactly `Nat`
  truncated subtraction.
* `u32` arithmetic is modelled on `Nat` with explicit reduction mod `2^32`
  where the Rust code can wrap (release-profile overflow semantics).
* `chrono::Duration::from_std` fails for std durations longer than
  `chrono::Duration::MAX` (`i64::MAX` milliseconds); the `.unwrap()` calls
  in the source are modelled by propagating `Option`, with `none` standing
  for the panic.
* The wall clock (`Utc::now()`) is passed in explicitly as an `Int`
  nanosecond count since the Unix epoch; `DateTime::timestamp()` is floor
  division by `10^9`.  chrono's `DateTime<Utc> + TimeDelta` is
  `checked_add_signed(..).expect(..)`: it panics when the result leaves
  the range `[DateTime::<Utc>::MIN_UTC, DateTime::<Utc>::MAX_UTC]`.
  `createInfo`/`checkRateLimit` abstract that panic as plain `Int`
  addition (adequate for the decision-logic claims, whose statements do
  not concern panics); `createInfoChecked`/`checkRateLimitChecked` model
  the same source lines with the range-checked addition and are used for
  the panic-freedom claim.
* The `HashMap<String, (Instant, u32)>` window store is modelled as a
  function `String → Option (Nat × Nat)`; `HashMap::insert` is pointwise
  function update.
-/

namespace WarpRateLimit

/-- Nanoseconds per second, the unit conversion used by `Duration::as_secs`
and `DateTime::timestamp`. -/
def nsPerSec : Nat := 1000000000

/-- `2^32`, the modulus of Rust `u32` arithmetic. -/
def u32Mod : Nat := 4294967296

/-- `chrono::Duration::MAX` expressed in nanoseconds: `i64::MAX`
milliseconds.  `chrono::Duration::from_std` errors on anything larger. -/
def chronoDurMaxNs : Nat := 9223372036854775807000000

/-- Wrapping `u32` subtraction `a - b` for `a b < 2^32` (release-profile
semantics of Rust `u32` subtraction). -/
def sub32 (a b : Nat) : Nat := (a + u32Mod - b) % u32Mod

/-- `chrono::Duration::from_std` on a std duration of `d` nanoseconds:
succeeds (propagating the value) iff the duration fits in a chrono
`Duration`.  `none` models the `OutOfRangeError` on which the source
calls `.unwrap()`. -/
def chronoFromStd (d : Nat) : Option Nat :=
  if d ≤ chronoDurMaxNs then some d else none

/-- `DateTime::<Utc>::timestamp()` on a point in time of `t` nanoseconds
since the Unix epoch: whole seconds, floor division. -/
def timestampOf (t : Int) : Int := Int.fdiv t (nsPerSec : Int)

/-- Abstraction of chrono's `DateTime::to_rfc2822` date formatter: an
injective rendering of the underlying instant.  The concrete RFC 2822 text
is external-library behaviour that no property here depends on. -/
def toRfc2822 (t : Int) : String := "rfc2822:" ++ toString t

/-- `config.rs`: format options for the Retry-After header. -/
inductive RetryAfterFormat where
  | HttpDate
  | Seconds
deriving DecidableEq, Repr

/-- `config.rs`: configuration for the rate limiter.  `window` is in
nanoseconds. -/
structure RateLimitConfig where
  max_requests : Nat
  window : Nat
  retry_after_format : RetryAfterFormat
  ip_header : String
deriving DecidableEq, Repr

/-- `config.rs`: `impl Default for RateLimitConfig`. -/
def RateLimitConfig.default : RateLimitConfig :=
  { max_requests := 60
    window := 60 * nsPerSec
    retry_after_format := RetryAfterFormat.HttpDate
    ip_header := "X-Forwarded-For" }

/-- `config.rs`: `RateLimitConfig::max_per_minute`. -/
def RateLimitConfig.max_per_minute (max : Nat) : RateLimitConfig :=
  { RateLimitConfig.default with max_requests := max, window := 60 * nsPerSec }

/-- `config.rs`: `RateLimitConfig::max_per_window`. -/
def RateLimitConfig.max_per_window (max_requests window_seconds : Nat) : RateLimitConfig :=
  { RateLimitConfig.default with
      max_requests := max_requests
      window := window_seconds * nsPerSec }

/-- `lib.rs`: `RateLimitInfo` — information about the current rate limit
status, as handed to admitted requests and rendered into headers. -/
structure RateLimitInfo where
  retry_after : String
  limit : Nat
  remaining : Nat
  reset_timestamp : Int
  retry_after_format : RetryAfterFormat
deriving DecidableEq, Repr

/-- `lib.rs`: `RateLimitRejection` — the rejection payload.  `retry_after`
is a std duration in nanoseconds, `reset_time` a UTC instant in
nanoseconds since the epoch. -/
structure RateLimitRejection where
  retry_after : Nat
  limit : Nat
  reset_time : Int
  retry_after_format : RetryAfterFormat
deriving DecidableEq, Repr

/-- Outcome of one `check_rate_limit` call, mirroring the source's
`Result<RateLimitInfo, Rejection>`: `ok` is an admitted request, `err` a
rejected one (the source wraps the rejection in `reject::custom`). -/
inductive CheckResult where
  | ok (info : RateLimitInfo)
  | err (rej : RateLimitRejection)
deriving DecidableEq, Repr

/-- The window store: `HashMap<String, (Instant, u32)>`, as a partial map
from key to `(window_start, count)`. -/
abbrev WindowMap : Type := String → Option (Nat × Nat)

/-- `HashMap::insert`: pointwise update, overwriting any previous entry
for `key` and leaving every other key untouched. -/
def mapInsert (s : WindowMap) (key : String) (v : Nat × Nat) : WindowMap :=
  fun k => if k = key then some v else s k

/-- The empty window store a fresh `RateLimiter` starts from. -/
def emptyWindowMap : WindowMap := fun _ => none

/-- `lib.rs`: `RateLimiter::create_info`.  `start` is the `Instant`
argument, `utcNow` the wall clock.  Mirrors the source exactly:
`reset_time = start + window`, the Retry-After string is the full window
(HTTP-date of `Utc::now() + window`, or `window.as_secs()`), and
`reset_timestamp = (Utc::now() + reset_time.duration_since(start)).timestamp()`.
`none` models a panicking `ChronoDuration::from_std(..).unwrap()`; the
`Utc::now() + ..` DateTime additions are abstracted as unbounded `Int`
addition here (see `createInfoChecked` for the range-checked model of the
same lines). -/
def createInfo (cfg : RateLimitConfig) (remaining : Nat) (start : Nat) (utcNow : Int) :
    Option RateLimitInfo :=
  let reset_time := start + cfg.window
  let ra? : Option String :=
    match cfg.retry_after_format with
    | RetryAfterFormat.HttpDate =>
        (chronoFromStd cfg.window).map (fun d => toRfc2822 (utcNow + Int.ofNat d))
    | RetryAfterFormat.Seconds => some (toString (cfg.window / nsPerSec))
  match ra?, chronoFromStd (reset_time - start) with
  | some ra, some d =>
      some { retry_after := ra
             limit := cfg.max_requests
             remaining := remaining
             reset_timestamp := timestampOf (utcNow + Int.ofNat d)
             retry_after_format := cfg.retry_after_format }
  | _, _ => none

/-- The Retry-After string `create_info` computes: in both formats it is
derived from the full configured window, not from the elapsed part of the
current window (`Utc::now() + window` as HTTP-date, or
`window.as_secs()`). -/
def fullWindowRetryAfter (cfg : RateLimitConfig) (utcNow : Int) : String :=
  match cfg.retry_after_format with
  | RetryAfterFormat.HttpDate => toRfc2822 (utcNow + Int.ofNat cfg.window)
  | RetryAfterFormat.Seconds => toString (cfg.window / nsPerSec)

/-- `lib.rs`: `RateLimiter::check_rate_limit` for one key, with the store
passed and returned explicitly (the source holds it behind an async
`RwLock` write guard for the whole call, so one call is one atomic
read-modify-write).  `now` is `Instant::now()`, `utcNow` is `Utc::now()`.
`none` models a panicking `.unwrap()`; the DateTime additions are
abstracted as unbounded `Int` addition (see `checkRateLimitChecked`). -/
def checkRateLimit (cfg : RateLimitConfig) (state : WindowMap) (key : String)
    (now : Nat) (utcNow : Int) : Option (WindowMap × CheckResult) :=
  match state key with
  | some (last_request, count) =>
      if cfg.window < now - last_request then
        -- Window has passed, reset counter
        (createInfo cfg (sub32 cfg.max_requests 1) now utcNow).map
          (fun info => (mapInsert state key (now, 1), CheckResult.ok info))
      else if cfg.max_requests ≤ count then
        -- Rate limit exceeded
        let retry_after := cfg.window - (now - last_request)
        (chronoFromStd retry_after).map
          (fun d =>
            (state,
             CheckResult.err
               { retry_after := retry_after
                 limit := cfg.max_requests
                 reset_time := utcNow + Int.ofNat d
                 retry_after_format := cfg.retry_after_format }))
      else
        -- Increment counter
        (createInfo cfg (sub32 cfg.max_requests ((count + 1) % u32Mod)) last_request utcNow).map
          (fun info =>
            (mapInsert state key (last_request, (count + 1) % u32Mod), CheckResult.ok info))
  | none =>
      -- First request
      (createInfo cfg (sub32 cfg.max_requests 1) now utcNow).map
        (fun info => (mapInsert state key (now, 1), CheckResult.ok info))

/-- `lib.rs`: `get_rate_limit_info` — renders a rejection into
`RateLimitInfo` (remaining is 0). -/
def getRateLimitInfo (rej : RateLimitRejection) : RateLimitInfo :=
  { retry_after :=
      match rej.retry_after_format with
      | RetryAfterFormat.HttpDate => toRfc2822 rej.reset_time
      | RetryAfterFormat.Seconds => toString (rej.retry_after / nsPerSec)
    limit := rej.limit
    remaining := 0
    reset_timestamp := timestampOf rej.reset_time
    retry_after_format := rej.retry_after_format }

/-- `chrono::DateTime::<Utc>::MAX_UTC` in nanoseconds since the epoch:
December 31, 262142 CE (`MAX_YEAR = (i32::MAX >> 13) - 1`), 23:59:59
plus 999 999 999 ns; its `timestamp()` is 8 210 266 876 799. -/
def dateTimeMaxNs : Int := 8210266876799999999999

/-- `chrono::DateTime::<Utc>::MIN_UTC` in nanoseconds since the epoch:
January 1, -262143 (262144 BCE, `MIN_YEAR = (i32::MIN >> 13) + 1`),
00:00:00. -/
def dateTimeMinNs : Int := -8334601315200000000000

/-- chrono's `DateTime<Utc> + TimeDelta` on a nonnegative delta of `d`
nanoseconds: `checked_add_signed(..).expect(..)` — `none` models the
"DateTime + TimeDelta overflowed" panic when the result leaves the
representable `DateTime` range. -/
def checkedAddSigned (t : Int) (d : Nat) : Option Int :=
  if dateTimeMinNs ≤ t + Int.ofNat d ∧ t + Int.ofNat d ≤ dateTimeMaxNs then
    some (t + Int.ofNat d)
  else none

/-- `RateLimiter::create_info` again, now with the two
`Utc::now() + ChronoDuration::from_std(..).unwrap()` additions modelled
by the range-checked `checkedAddSigned` instead of unbounded `Int`
addition: `none` covers both the `from_std` unwrap panic and the
DateTime-addition overflow panic.  Identical to `createInfo` otherwise. -/
def createInfoChecked (cfg : RateLimitConfig) (remaining : Nat) (start : Nat)
    (utcNow : Int) : Option RateLimitInfo :=
  let reset_time := start + cfg.window
  let ra? : Option String :=
    match cfg.retry_after_format with
    | RetryAfterFormat.HttpDate =>
        (chronoFromStd cfg.window).bind
          (fun d => (checkedAddSigned utcNow d).map toRfc2822)
    | RetryAfterFormat.Seconds => some (toString (cfg.window / nsPerSec))
  match ra?, (chronoFromStd (reset_time - start)).bind
      (fun d => checkedAddSigned utcNow d) with
  | some ra, some t =>
      some { retry_after := ra
             limit := cfg.max_requests
             remaining := remaining
             reset_timestamp := timestampOf t
             retry_after_format := cfg.retry_after_format }
  | _, _ => none

/-- `RateLimiter::check_rate_limit` again, built on `createInfoChecked`
and with the reject branch's `Utc::now() + ChronoDuration` modelled by
`checkedAddSigned`: `none` covers every unwrap/overflow panic of the
source (the `start + window` Instant addition stays unbounded: for
windows within chrono's `Duration` range it sits far below the
platform's `Instant` cap for any realistic monotonic-clock reading).
Identical to `checkRateLimit` otherwise. -/
def checkRateLimitChecked (cfg : RateLimitConfig) (state : WindowMap) (key : String)
    (now : Nat) (utcNow : Int) : Option (WindowMap × CheckResult) :=
  match state key with
  | some (last_request, count) =>
      if cfg.window < now - last_request then
        -- Window has passed, reset counter
        (createInfoChecked cfg (sub32 cfg.max_requests 1) now utcNow).map
          (fun info => (mapInsert state key (now, 1), CheckResult.ok info))
      else if cfg.max_requests ≤ count then
        -- Rate limit exceeded
        let retry_after := cfg.window - (now - last_request)
        (chronoFromStd retry_after).bind
          (fun d =>
            (checkedAddSigned utcNow d).map
              (fun t =>
                (state,
                 CheckResult.err
                   { retry_after := retry_after
                     limit := cfg.max_requests
                     reset_time := t
                     retry_after_format := cfg.retry_after_format })))
      else
        -- Increment counter
        (createInfoChecked cfg (sub32 cfg.max_requests ((count + 1) % u32Mod))
            last_request utcNow).map
          (fun info =>
            (mapInsert state key (last_request, (count + 1) % u32Mod),
             CheckResult.ok info))
  | none =>
      -- First request
      (createInfoChecked cfg (sub32 cfg.max_requests 1) now utcNow).map
        (fun info => (mapInsert state key (now, 1), CheckResult.ok info))

/-- `error.rs`: `RateLimitError`.  `HeaderError` wraps http's
`InvalidHeaderValue`, which carries no data identifying the failing
header; `Other` wraps an opaque boxed error.  Both payloads are opaque to
every property here and are dropped. -/
inductive RateLimitError where
  | HeaderError
  | Other
deriving DecidableEq, Repr

/-- Validity of one character of a header value under http's
`HeaderValue::from_str`: the byte-level rule is
`b >= 32 && b != 127 || b == 9`.  Characters below 128 occupy one UTF-8
byte equal to their code point; characters at or above 128 encode to bytes
that are all `>= 128`, hence always valid. -/
def isValidHeaderChar (c : Char) : Bool :=
  decide (128 ≤ c.toNat) || (decide (32 ≤ c.toNat) && decide (c.toNat ≠ 127))
    || decide (c.toNat = 9)

/-- http's `HeaderValue::from_str`: succeeds iff every byte of the string
is a valid header-value byte; `none` models `Err(InvalidHeaderValue)`. -/
def headerValueFromStr (s : String) : Option String :=
  if s.data.all isValidHeaderChar then some s else none

/-- A `warp::http::HeaderMap`, restricted to the operations the source
uses: an association list of (name, value) pairs. -/
abbrev HeaderMap : Type := List (String × String)

/-- `HeaderMap::insert`: replaces the value of an existing header name in
place, otherwise appends the new entry. -/
def headerInsert (m : HeaderMap) (name value : String) : HeaderMap :=
  if m.any (fun p => p.1 = name) then
    m.map (fun p => if p.1 = name then (name, value) else p)
  else
    m ++ [(name, value)]

/-- `lib.rs`: `add_rate_limit_headers`.  The header map is `&mut` in the
source, so inserts made before a failing `HeaderValue::from_str` persist;
the returned pair is (map after the call, error if any).  Headers are
inserted in source order: Retry-After, X-RateLimit-Limit,
X-RateLimit-Remaining, X-RateLimit-Reset. -/
def addRateLimitHeaders (headers : HeaderMap) (info : RateLimitInfo) :
    HeaderMap × Option RateLimitError :=
  match headerValueFromStr info.retry_after with
  | none => (headers, some RateLimitError.HeaderError)
  | some v1 =>
    let h1 := headerInsert headers "retry-after" v1
    match headerValueFromStr (toString info.limit) with
    | none => (h1, some RateLimitError.HeaderError)
    | some v2 =>
      let h2 := headerInsert h1 "x-ratelimit-limit" v2
      match headerValueFromStr (toString info.remaining) with
      | none => (h2, some RateLimitError.HeaderError)
      | some v3 =>
        let h3 := headerInsert h2 "x-ratelimit-remaining" v3
        match headerValueFromStr (toString info.reset_timestamp) with
        | none => (h3, some RateLimitError.HeaderError)
        | some v4 => (headerInsert h3 "x-ratelimit-reset" v4, none)

/-- The store after `i` serialized checks for `key`: check `i` happens at
monotonic time `times i` and wall clock `utc i`.  A (never reached, under
the hypotheses used below) panic leaves the store unchanged. -/
def runState (cfg : RateLimitConfig) (key : String) (s : WindowMap)
    (times : Nat → Nat) (utc : Nat → Int) : Nat → WindowMap
  | 0 => s
  | i + 1 =>
      match checkRateLimit cfg (runState cfg key s times utc i) key (times i) (utc i) with
      | some (s2, _) => s2
      | none => runState cfg key s times utc i

/-- The decision of the `i`-th (0-indexed) serialized check for `key`. -/
def runDecision (cfg : RateLimitConfig) (key : String) (s : WindowMap)
    (times : Nat → Nat) (utc : Nat → Int) (i : Nat) : Option CheckResult :=
  (checkRateLimit cfg (runState cfg key s times utc i) key (times i) (utc i)).map Prod.snd

/-! ## Helper lemmas -/

/-- Wrapping `u32` subtraction agrees with exact subtraction when no
underflow occurs. -/
lemma sub32_eq (a b : Nat) (hb : b ≤ a) (ha : a < u32Mod) : sub32 a b = a - b := by
  unfold sub32 u32Mod at *
  omega

/-- `create_info` never fails when the configured window fits in a chrono
duration, and then its result is fully determined: the Retry-After string
and the reset timestamp are both derived from the full window, whatever
`start` was passed. -/
lemma createInfo_eq (cfg : RateLimitConfig) (r start : Nat) (utc : Int)
    (hw : cfg.window ≤ chronoDurMaxNs) :
    createInfo cfg r start utc =
      some { retry_after := fullWindowRetryAfter cfg utc
             limit := cfg.max_requests
             remaining := r
             reset_timestamp := timestampOf (utc + Int.ofNat cfg.window)
             retry_after_format := cfg.retry_after_format } := by
  unfold createInfo fullWindowRetryAfter chronoFromStd
  dsimp only
  have h1 : start + cfg.window - start = cfg.window := by omega
  rw [h1, if_pos hw]
  cases hf : cfg.retry_after_format <;> simp

/-- `create_info` panics (models as `none`) when the configured window
does not fit in a chrono duration. -/
lemma createInfo_none (cfg : RateLimitConfig) (r start : Nat) (utc : Int)
    (hw : ¬ cfg.window ≤ chronoDurMaxNs) :
    createInfo cfg r start utc = none := by
  unfold createInfo chronoFromStd
  dsimp only
  have h1 : start + cfg.window - start = cfg.window := by omega
  rw [h1, if_neg hw]
  cases hf : cfg.retry_after_format <;> simp

/-- `check_rate_limit`, branch 1 of the source: no prior state. -/
lemma checkRateLimit_fresh (cfg : RateLimitConfig) (s : WindowMap) (key : String)
    (now : Nat) (utc : Int) (h : s key = none) :
    checkRateLimit cfg s key now utc =
      (createInfo cfg (sub32 cfg.max_requests 1) now utc).map
        (fun info => (mapInsert s key (now, 1), CheckResult.ok info)) := by
  unfold checkRateLimit
  rw [h]

/-- `check_rate_limit`, branch 2: prior state with an expired window. -/
lemma checkRateLimit_expired (cfg : RateLimitConfig) (s : WindowMap) (key : String)
    (now : Nat) (utc : Int) (ws c : Nat) (h : s key = some (ws, c))
    (hexp : cfg.window < now - ws) :
    checkRateLimit cfg s key now utc =
      (createInfo cfg (sub32 cfg.max_requests 1) now utc).map
        (fun info => (mapInsert s key (now, 1), CheckResult.ok info)) := by
  unfold checkRateLimit
  rw [h]
  simp only [if_pos hexp]

/-- `check_rate_limit`, branch 3: active window at capacity, rejected
without touching the store. -/
lemma checkRateLimit_reject (cfg : RateLimitConfig) (s : WindowMap) (key : String)
    (now : Nat) (utc : Int) (ws c : Nat) (h : s key = some (ws, c))
    (hexp : ¬ cfg.window < now - ws) (hcnt : cfg.max_requests ≤ c) :
    checkRateLimit cfg s key now utc =
      (chronoFromStd (cfg.window - (now - ws))).map
        (fun d =>
          (s, CheckResult.err
            { retry_after := cfg.window - (now - ws)
              limit := cfg.max_requests
              reset_time := utc + Int.ofNat d
              retry_after_format := cfg.retry_after_format })) := by
  unfold checkRateLimit
  rw [h]
  simp only [if_neg hexp, if_pos hcnt]

/-- `check_rate_limit`, branch 4: active window below capacity, counter
incremented in place. -/
lemma checkRateLimit_incr (cfg : RateLimitConfig) (s : WindowMap) (key : String)
    (now : Nat) (utc : Int) (ws c : Nat) (h : s key = some (ws, c))
    (hexp : ¬ cfg.window < now - ws) (hcnt : ¬ cfg.max_requests ≤ c) :
    checkRateLimit cfg s key now utc =
      (createInfo cfg (sub32 cfg.max_requests ((c + 1) % u32Mod)) ws utc).map
        (fun info =>
          (mapInsert s key (ws, (c + 1) % u32Mod), CheckResult.ok info)) := by
  unfold checkRateLimit
  rw [h]
  simp only [if_neg hexp, if_neg hcnt]

/-- The checked DateTime addition succeeds exactly on in-range results. -/
lemma checkedAddSigned_eq (t : Int) (d : Nat)
    (hlo : dateTimeMinNs ≤ t + Int.ofNat d) (hhi : t + Int.ofNat d ≤ dateTimeMaxNs) :
    checkedAddSigned t d = some (t + Int.ofNat d) := by
  unfold checkedAddSigned
  rw [if_pos ⟨hlo, hhi⟩]

/-- `createInfoChecked` never fails — and agrees with `createInfo` — when
the window fits a chrono duration and the wall clock plus the window stays
inside the `DateTime` range. -/
lemma createInfoChecked_eq (cfg : RateLimitConfig) (r start : Nat) (utc : Int)
    (hw : cfg.window ≤ chronoDurMaxNs) (hlo : dateTimeMinNs ≤ utc)
    (hhi : utc + Int.ofNat cfg.window ≤ dateTimeMaxNs) :
    createInfoChecked cfg r start utc =
      some { retry_after := fullWindowRetryAfter cfg utc
             limit := cfg.max_requests
             remaining := r
             reset_timestamp := timestampOf (utc + Int.ofNat cfg.window)
             retry_after_format := cfg.retry_after_format } := by
  have h2 : checkedAddSigned utc cfg.window = some (utc + Int.ofNat cfg.window) :=
    checkedAddSigned_eq utc cfg.window
      (hlo.trans (le_add_of_nonneg_right (Int.ofNat_nonneg _))) hhi
  unfold createInfoChecked fullWindowRetryAfter chronoFromStd
  dsimp only
  have h1 : start + cfg.window - start = cfg.window := by omega
  rw [h1, if_pos hw]
  cases hf : cfg.retry_after_format <;> simp [h2]

/-- `checkRateLimitChecked`, branch 1 of the source: no prior state. -/
lemma checkRateLimitChecked_fresh (cfg : RateLimitConfig) (s : WindowMap) (key : String)
    (now : Nat) (utc : Int) (h : s key = none) :
    checkRateLimitChecked cfg s key now utc =
      (createInfoChecked cfg (sub32 cfg.max_requests 1) now utc).map
        (fun info => (mapInsert s key (now, 1), CheckResult.ok info)) := by
  unfold checkRateLimitChecked
  rw [h]

/-- `checkRateLimitChecked`, branch 2: prior state, expired window. -/
lemma checkRateLimitChecked_expired (cfg : RateLimitConfig) (s : WindowMap) (key : String)
    (now : Nat) (utc : Int) (ws c : Nat) (h : s key = some (ws, c))
    (hexp : cfg.window < now - ws) :
    checkRateLimitChecked cfg s key now utc =
      (createInfoChecked cfg (sub32 cfg.max_requests 1) now utc).map
        (fun info => (mapInsert s key (now, 1), CheckResult.ok info)) := by
  unfold checkRateLimitChecked
  rw [h]
  simp only [if_pos hexp]

/-- `checkRateLimitChecked`, branch 3: active window at capacity. -/
lemma checkRateLimitChecked_reject (cfg : RateLimitConfig) (s : WindowMap) (key : String)
    (now : Nat) (utc : Int) (ws c : Nat) (h : s key = some (ws, c))
    (hexp : ¬ cfg.window < now - ws) (hcnt : cfg.max_requests ≤ c) :
    checkRateLimitChecked cfg s key now utc =
      (chronoFromStd (cfg.window - (now - ws))).bind
        (fun d =>
          (checkedAddSigned utc d).map
            (fun t =>
              (s, CheckResult.err
                { retry_after := cfg.window - (now - ws)
                  limit := cfg.max_requests
                  reset_time := t
                  retry_after_format := cfg.retry_after_format }))) := by
  unfold checkRateLimitChecked
  rw [h]
  simp only [if_neg hexp, if_pos hcnt]

/-- `checkRateLimitChecked`, branch 4: active window below capacity. -/
lemma checkRateLimitChecked_incr (cfg : RateLimitConfig) (s : WindowMap) (key : String)
    (now : Nat) (utc : Int) (ws c : Nat) (h : s key = some (ws, c))
    (hexp : ¬ cfg.window < now - ws) (hcnt : ¬ cfg.max_requests ≤ c) :
    checkRateLimitChecked cfg s key now utc =
      (createInfoChecked cfg (sub32 cfg.max_requests ((c + 1) % u32Mod)) ws utc).map
        (fun info =>
          (mapInsert s key (ws, (c + 1) % u32Mod), CheckResult.ok info)) := by
  unfold checkRateLimitChecked
  rw [h]
  simp only [if_neg hexp, if_neg hcnt]

/-- Whatever `create_info` returns has the Retry-After string and reset
timestamp derived from the full window, and carries the `remaining` and
`limit` it was given. -/
lemma createInfo_fields (cfg : RateLimitConfig) (r start : Nat) (utc : Int)
    (info : RateLimitInfo) (h : createInfo cfg r start utc = some info) :
    info.retry_after = fullWindowRetryAfter cfg utc ∧
      info.reset_timestamp = timestampOf (utc + Int.ofNat cfg.window) ∧
      info.remaining = r ∧ info.limit = cfg.max_requests := by
  by_cases hw : cfg.window ≤ chronoDurMaxNs
  · rw [createInfo_eq cfg r start utc hw] at h
    cases h
    exact ⟨rfl, rfl, rfl, rfl⟩
  · rw [createInfo_none cfg r start utc hw] at h
    cases h

/-- Every admitted (`ok`) outcome of `check_rate_limit` is produced by
`create_info`. -/
lemma ok_of_checkRateLimit (cfg : RateLimitConfig) (s : WindowMap) (key : String)
    (now : Nat) (utc : Int) (s2 : WindowMap) (info : RateLimitInfo)
    (h : checkRateLimit cfg s key now utc = some (s2, CheckResult.ok info)) :
    ∃ r start, createInfo cfg r start utc = some info := by
  cases hsk : s key with
  | none =>
    rw [checkRateLimit_fresh cfg s key now utc hsk] at h
    cases hci : createInfo cfg (sub32 cfg.max_requests 1) now utc with
    | none => rw [hci] at h; cases h
    | some info0 =>
      rw [hci] at h
      cases h
      exact ⟨_, _, hci⟩
  | some p =>
    obtain ⟨ws, c⟩ := p
    by_cases hexp : cfg.window < now - ws
    · rw [checkRateLimit_expired cfg s key now utc ws c hsk hexp] at h
      cases hci : createInfo cfg (sub32 cfg.max_requests 1) now utc with
      | none => rw [hci] at h; cases h
      | some info0 =>
        rw [hci] at h
        cases h
        exact ⟨_, _, hci⟩
    · by_cases hcnt : cfg.max_requests ≤ c
      · rw [checkRateLimit_reject cfg s key now utc ws c hsk hexp hcnt] at h
        cases hcd : chronoFromStd (cfg.window - (now - ws)) with
        | none => rw [hcd] at h; cases h
        | some d => rw [hcd] at h; cases h
      · rw [checkRateLimit_incr cfg s key now utc ws c hsk hexp hcnt] at h
        cases hci : createInfo cfg (sub32 cfg.max_requests ((c + 1) % u32Mod)) ws utc with
        | none => rw [hci] at h; cases h
        | some info0 =>
          rw [hci] at h
          cases h
          exact ⟨_, _, hci⟩

/-! ## Claims -/

/-- C2: for every key with prior stored state `(ws, c)`, if `now - ws`
strictly exceeds the configured window, the check overwrites the entry
with `(now, 1)` — anchoring the new window at the current arrival time —
and returns an admitted result with `remaining = max_requests - 1`.
(`max_requests` is a positive `u32`; the window fits a chrono duration so
the conversion `unwrap` cannot fire.) -/
theorem c2_expired_window_resets (cfg : RateLimitConfig) (s : WindowMap) (key : String)
    (now : Nat) (utc : Int) (ws c : Nat)
    (hprev : s key = some (ws, c)) (hexp : cfg.window < now - ws)
    (hmax : 0 < cfg.max_requests) (hmax32 : cfg.max_requests < u32Mod)
    (hw : cfg.window ≤ chronoDurMaxNs) :
    ∃ info, checkRateLimit cfg s key now utc =
        some (mapInsert s key (now, 1), CheckResult.ok info) ∧
      info.remaining = cfg.max_requests - 1 := by
  rw [checkRateLimit_expired cfg s key now utc ws c hprev hexp,
    createInfo_eq cfg (sub32 cfg.max_requests 1) now utc hw]
  exact ⟨_, rfl, sub32_eq cfg.max_requests 1 hmax hmax32⟩

/-- C2 witness: a key at `(window_start 0, count 2)` under a 2-per-60s
limit, checked 70 s later, is admitted afresh with remaining 1. -/
theorem c2_witness :
    ∃ info,
      checkRateLimit ⟨2, 60000000000, RetryAfterFormat.Seconds, "X-Forwarded-For"⟩
          (mapInsert emptyWindowMap "k" (0, 2)) "k" 70000000000 0 =
        some (mapInsert (mapInsert emptyWindowMap "k" (0, 2)) "k" (70000000000, 1),
          CheckResult.ok info) ∧
      info.remaining = 2 - 1 :=
  c2_expired_window_resets ⟨2, 60000000000, RetryAfterFormat.Seconds, "X-Forwarded-For"⟩
    (mapInsert emptyWindowMap "k" (0, 2)) "k" 70000000000 0 0 2
    (by decide) (by decide) (by decide) (by decide) (by decide)

/-- C3: for every key whose stored state has an active window
(`now - ws ≤ window`) and `count ≥ max_requests`, the check is rejected
and the whole store — in particular the entry for that key — is returned
exactly unchanged. -/
theorem c3_reject_leaves_state (cfg : RateLimitConfig) (s : WindowMap) (key : String)
    (now : Nat) (utc : Int) (ws c : Nat)
    (hprev : s key = some (ws, c)) (hact : now - ws ≤ cfg.window)
    (hcnt : cfg.max_requests ≤ c) (hw : cfg.window ≤ chronoDurMaxNs) :
    ∃ rej, checkRateLimit cfg s key now utc = some (s, CheckResult.err rej) := by
  rw [checkRateLimit_reject cfg s key now utc ws c hprev (by omega) hcnt]
  unfold chronoFromStd
  rw [if_pos (show cfg.window - (now - ws) ≤ chronoDurMaxNs by omega)]
  exact ⟨_, rfl⟩

/-- C3 witness: a key at capacity (count 2 of 2) checked 30 s into its
60 s window is rejected with the store untouched. -/
theorem c3_witness :
    ∃ rej,
      checkRateLimit ⟨2, 60000000000, RetryAfterFormat.Seconds, "X-Forwarded-For"⟩
          (mapInsert emptyWindowMap "k" (0, 2)) "k" 30000000000 0 =
        some (mapInsert emptyWindowMap "k" (0, 2), CheckResult.err rej) :=
  c3_reject_leaves_state ⟨2, 60000000000, RetryAfterFormat.Seconds, "X-Forwarded-For"⟩
    (mapInsert emptyWindowMap "k" (0, 2)) "k" 30000000000 0 0 2
    (by decide) (by decide) (by decide) (by decide)

/-- C4 counterexample: a rejection issued exactly at the window boundary
(`now - ws = window`, still an active window since the code tests strict
inequality) carries `retry_after = 0`, whose Seconds rendering decodes to
0 — not strictly greater than 0 as the claim states. -/
theorem c4_counterexample :
    checkRateLimit ⟨1, 60000000000, RetryAfterFormat.Seconds, "X-Forwarded-For"⟩
        (mapInsert emptyWindowMap "k" (0, 1)) "k" 60000000000 0 =
      some (mapInsert emptyWindowMap "k" (0, 1),
        CheckResult.err ⟨0, 1, 0, RetryAfterFormat.Seconds⟩) ∧
    (getRateLimitInfo ⟨0, 1, 0, RetryAfterFormat.Seconds⟩).retry_after = "0" :=
  ⟨rfl, rfl⟩

/-- C4 (amended): for every rejection rendered with the Seconds format,
the decoded Retry-After value is at most the window length in seconds
(and, being a `u64`, at least 0); it can be exactly 0 when less than one
full second of the window remains. -/
theorem c4_retry_seconds_bounded (cfg : RateLimitConfig) (s : WindowMap) (key : String)
    (now : Nat) (utc : Int) (ws c : Nat)
    (hprev : s key = some (ws, c)) (hact : now - ws ≤ cfg.window)
    (hcnt : cfg.max_requests ≤ c) (hw : cfg.window ≤ chronoDurMaxNs)
    (hfmt : cfg.retry_after_format = RetryAfterFormat.Seconds) :
    ∃ rej n, checkRateLimit cfg s key now utc = some (s, CheckResult.err rej) ∧
      (getRateLimitInfo rej).retry_after = toString n ∧ n ≤ cfg.window / nsPerSec := by
  rw [checkRateLimit_reject cfg s key now utc ws c hprev (by omega) hcnt]
  unfold chronoFromStd
  rw [if_pos (show cfg.window - (now - ws) ≤ chronoDurMaxNs by omega)]
  refine ⟨_, (cfg.window - (now - ws)) / nsPerSec, rfl, ?_, ?_⟩
  · simp [getRateLimitInfo, hfmt]
  · exact Nat.div_le_div_right (Nat.sub_le _ _)

/-- C4 witness: rejecting 30 s into a 60 s window decodes to 30 ≤ 60. -/
theorem c4_witness :
    ∃ rej n,
      checkRateLimit ⟨2, 60000000000, RetryAfterFormat.Seconds, "X-Forwarded-For"⟩
          (mapInsert emptyWindowMap "j" (0, 2)) "j" 30000000000 0 =
        some (mapInsert emptyWindowMap "j" (0, 2), CheckResult.err rej) ∧
      (getRateLimitInfo rej).retry_after = toString n ∧ n ≤ 60000000000 / nsPerSec :=
  c4_retry_seconds_bounded ⟨2, 60000000000, RetryAfterFormat.Seconds, "X-Forwarded-For"⟩
    (mapInsert emptyWindowMap "j" (0, 2)) "j" 30000000000 0 0 2
    (by decide) (by decide) (by decide) (by decide) (by decide)

/-- C5 counterexample: a request admitted 30 s into a 60 s window (state
`(0, 1)`, limit 2, Seconds format) carries Retry-After "60" — the full
window — not "30", the integer seconds of the time remaining until the
stored window (started at 0) resets. -/
theorem c5_counterexample :
    checkRateLimit ⟨2, 60000000000, RetryAfterFormat.Seconds, "X-Forwarded-For"⟩
        (mapInsert emptyWindowMap "k" (0, 1)) "k" 30000000000 0 =
      some (mapInsert (mapInsert emptyWindowMap "k" (0, 1)) "k" (0, 2),
        CheckResult.ok ⟨"60", 2, 0, 60, RetryAfterFormat.Seconds⟩) ∧
    ("60" : String) ≠ toString ((0 + 60000000000 - 30000000000) / nsPerSec) :=
  ⟨rfl, by decide⟩

/-- C5 (amended): for every admitted decision rendered with the Seconds
format, the Retry-After field is the integer seconds of the full
configured window — a constant, independent of where in the window the
request falls (and so not the time-to-reset measured from the stored
window start). -/
theorem c5_ok_retry_after_full_window (cfg : RateLimitConfig) (s : WindowMap) (key : String)
    (now : Nat) (utc : Int) (s2 : WindowMap) (info : RateLimitInfo)
    (h : checkRateLimit cfg s key now utc = some (s2, CheckResult.ok info))
    (hfmt : cfg.retry_after_format = RetryAfterFormat.Seconds) :
    info.retry_after = toString (cfg.window / nsPerSec) := by
  obtain ⟨r, start, hci⟩ := ok_of_checkRateLimit cfg s key now utc s2 info h
  have h1 := (createInfo_fields cfg r start utc info hci).1
  rw [h1]
  unfold fullWindowRetryAfter
  rw [hfmt]

/-- C5 witness: the mid-window admission of the counterexample indeed
renders the full 60 s window. -/
theorem c5_witness :
    RateLimitInfo.retry_after ⟨"60", 2, 0, 60, RetryAfterFormat.Seconds⟩ =
      toString (60000000000 / nsPerSec) :=
  c5_ok_retry_after_full_window
    ⟨2, 60000000000, RetryAfterFormat.Seconds, "X-Forwarded-For"⟩
    (mapInsert emptyWindowMap "k" (0, 1)) "k" 30000000000 0
    (mapInsert (mapInsert emptyWindowMap "k" (0, 1)) "k" (0, 2))
    ⟨"60", 2, 0, 60, RetryAfterFormat.Seconds⟩ rfl rfl

/-- C7 counterexample: with `max_requests = 1 > 0` and a positive window
of `10^14` seconds, the very first check panics.  The window fits both a
std `Duration` and a chrono `Duration` (`10^17 ms < i64::MAX ms`), so
`from_std` succeeds and `start + window` stays far below the platform's
`Instant` cap — but `Utc::now() + window` overflows
`DateTime::<Utc>::MAX_UTC` (here even from a wall clock at the epoch,
`0 ≤ dateTimeMaxNs`), so `checked_add_signed(..).expect(..)` in
`create_info` fires.  The claimed panic-freedom for every positive window
does not hold. -/
theorem c7_counterexample :
    (0 : Nat) < 1 ∧ (0 : Nat) < 100000000000000000000000 ∧
    (100000000000000000000000 : Nat) ≤ chronoDurMaxNs ∧
    dateTimeMinNs ≤ 0 ∧ (0 : Int) ≤ dateTimeMaxNs ∧
    checkRateLimitChecked
        ⟨1, 100000000000000000000000, RetryAfterFormat.Seconds, "X-Forwarded-For"⟩
        emptyWindowMap "k" 0 0 = none :=
  ⟨by decide, by decide, by decide, by decide, by decide, rfl⟩

/-- C7 (amended): for every key, store, time and configuration with
`max_requests > 0` and `window > 0`, provided the window fits a chrono
duration (`window ≤ i64::MAX` milliseconds) and the wall clock plus the
window stays inside the representable `DateTime<Utc>` range, the check is
total: it returns a decision — admitted or rejected — and neither the
`from_std` unwraps nor the DateTime additions can panic. -/
theorem c7_no_panic (cfg : RateLimitConfig) (s : WindowMap) (key : String)
    (now : Nat) (utc : Int) (_hmax : 0 < cfg.max_requests) (_hwpos : 0 < cfg.window)
    (hw : cfg.window ≤ chronoDurMaxNs) (hlo : dateTimeMinNs ≤ utc)
    (hhi : utc + Int.ofNat cfg.window ≤ dateTimeMaxNs) :
    ∃ s2 d, checkRateLimitChecked cfg s key now utc = some (s2, d) := by
  cases hsk : s key with
  | none =>
    rw [checkRateLimitChecked_fresh cfg s key now utc hsk,
      createInfoChecked_eq cfg (sub32 cfg.max_requests 1) now utc hw hlo hhi]
    exact ⟨_, _, rfl⟩
  | some p =>
    obtain ⟨ws, c⟩ := p
    by_cases hexp : cfg.window < now - ws
    · rw [checkRateLimitChecked_expired cfg s key now utc ws c hsk hexp,
        createInfoChecked_eq cfg (sub32 cfg.max_requests 1) now utc hw hlo hhi]
      exact ⟨_, _, rfl⟩
    · by_cases hcnt : cfg.max_requests ≤ c
      · have hck := checkRateLimitChecked_reject cfg s key now utc ws c hsk hexp hcnt
        unfold chronoFromStd at hck
        rw [if_pos (show cfg.window - (now - ws) ≤ chronoDurMaxNs by omega)] at hck
        have hd : cfg.window - (now - ws) ≤ cfg.window := Nat.sub_le _ _
        have h2 : checkedAddSigned utc (cfg.window - (now - ws)) =
            some (utc + Int.ofNat (cfg.window - (now - ws))) :=
          checkedAddSigned_eq utc (cfg.window - (now - ws))
            (hlo.trans (le_add_of_nonneg_right (Int.ofNat_nonneg _)))
            ((add_le_add_left (Int.ofNat_le.mpr hd) utc).trans hhi)
        simp only [Option.some_bind, h2, Option.map_some'] at hck
        exact ⟨_, _, hck⟩
      · rw [checkRateLimitChecked_incr cfg s key now utc ws c hsk hexp hcnt,
          createInfoChecked_eq cfg (sub32 cfg.max_requests ((c + 1) % u32Mod)) ws utc
            hw hlo hhi]
        exact ⟨_, _, rfl⟩

/-- C7 witness: a first check under a 2-per-60s limit from a present-day
wall clock (2025-10-01 UTC) yields a decision. -/
theorem c7_witness :
    ∃ s2 d,
      checkRateLimitChecked ⟨2, 60000000000, RetryAfterFormat.Seconds, "X-Forwarded-For"⟩
        emptyWindowMap "k" 0 1759276800000000000 = some (s2, d) :=
  c7_no_panic ⟨2, 60000000000, RetryAfterFormat.Seconds, "X-Forwarded-For"⟩
    emptyWindowMap "k" 0 1759276800000000000 (by decide) (by decide) (by decide)
    (by decide) (by decide)

/-- C9: a check for one key leaves the stored window state of every other
key unchanged — decisions for distinct keys are independent. -/
theorem c9_other_keys_unchanged (cfg : RateLimitConfig) (s : WindowMap) (key : String)
    (now : Nat) (utc : Int) (s2 : WindowMap) (d : CheckResult) (k2 : String)
    (h : checkRateLimit cfg s key now utc = some (s2, d)) (hne : k2 ≠ key) :
    s2 k2 = s k2 := by
  cases hsk : s key with
  | none =>
    rw [checkRateLimit_fresh cfg s key now utc hsk] at h
    cases hci : createInfo cfg (sub32 cfg.max_requests 1) now utc with
    | none => rw [hci] at h; cases h
    | some info0 =>
      rw [hci] at h
      cases h
      simp [mapInsert, hne]
  | some p =>
    obtain ⟨ws, c⟩ := p
    by_cases hexp : cfg.window < now - ws
    · rw [checkRateLimit_expired cfg s key now utc ws c hsk hexp] at h
      cases hci : createInfo cfg (sub32 cfg.max_requests 1) now utc with
      | none => rw [hci] at h; cases h
      | some info0 =>
        rw [hci] at h
        cases h
        simp [mapInsert, hne]
    · by_cases hcnt : cfg.max_requests ≤ c
      · rw [checkRateLimit_reject cfg s key now utc ws c hsk hexp hcnt] at h
        cases hcd : chronoFromStd (cfg.window - (now - ws)) with
        | none => rw [hcd] at h; cases h
        | some d0 =>
          rw [hcd] at h
          cases h
          rfl
      · rw [checkRateLimit_incr cfg s key now utc ws c hsk hexp hcnt] at h
        cases hci : createInfo cfg (sub32 cfg.max_requests ((c + 1) % u32Mod)) ws utc with
        | none => rw [hci] at h; cases h
        | some info0 =>
          rw [hci] at h
          cases h
          simp [mapInsert, hne]

/-- C9 witness: a first check for key "a" leaves key "b" unchanged. -/
theorem c9_witness :
    mapInsert emptyWindowMap "a" (0, 1) "b" = emptyWindowMap "b" :=
  c9_other_keys_unchanged ⟨2, 60000000000, RetryAfterFormat.Seconds, "X-Forwarded-For"⟩
    emptyWindowMap "a" 0 0 (mapInsert emptyWindowMap "a" (0, 1))
    (CheckResult.ok ⟨"60", 2, 1, 60, RetryAfterFormat.Seconds⟩) "b" rfl (by decide)

/-- C10: every admitted decision — first request, in-window increment, or
post-expiry reset — reports `reset_timestamp` equal to the wall clock at
the check plus the full window: the `start` passed into `create_info`
cancels out (`reset_time.duration_since(start) = window`), so the
reported reset time is never anchored at the stored window start. -/
theorem c10_reset_timestamp_now_plus_window (cfg : RateLimitConfig) (s : WindowMap)
    (key : String) (now : Nat) (utc : Int) (s2 : WindowMap) (info : RateLimitInfo)
    (h : checkRateLimit cfg s key now utc = some (s2, CheckResult.ok info)) :
    info.reset_timestamp = timestampOf (utc + Int.ofNat cfg.window) := by
  obtain ⟨r, start, hci⟩ := ok_of_checkRateLimit cfg s key now utc s2 info h
  exact (createInfo_fields cfg r start utc info hci).2.1

/-- C10 witness: the mid-window admission started at instant 0 and
checked at 30 s still reports reset at wall clock + 60 s. -/
theorem c10_witness :
    RateLimitInfo.reset_timestamp ⟨"60", 2, 0, 60, RetryAfterFormat.Seconds⟩ =
      timestampOf (0 + Int.ofNat 60000000000) :=
  c10_reset_timestamp_now_plus_window
    ⟨2, 60000000000, RetryAfterFormat.Seconds, "X-Forwarded-For"⟩
    (mapInsert emptyWindowMap "k" (0, 1)) "k" 30000000000 0
    (mapInsert (mapInsert emptyWindowMap "k" (0, 1)) "k" (0, 2))
    ⟨"60", 2, 0, 60, RetryAfterFormat.Seconds⟩ rfl

/-- C6 counterexample: with `max_requests = 0`, the very first check from
an unseen key is NOT rejected: the code takes the first-request branch and
computes `max_requests - 1` on a `u32`, wrapping to `2^32 - 1` (a panic
under debug assertions), so the request is admitted. -/
theorem c6_counterexample :
    checkRateLimit ⟨0, 60000000000, RetryAfterFormat.Seconds, "X-Forwarded-For"⟩
        emptyWindowMap "k" 0 0 =
      some (mapInsert emptyWindowMap "k" (0, 1),
        CheckResult.ok ⟨"60", 0, 4294967295, 60, RetryAfterFormat.Seconds⟩) :=
  rfl

/-- C6 (amended): with `max_requests = 0`, a check from a previously
unseen key is admitted, and so is a check that finds prior state with an
expired window — both with `remaining` wrapped to `2^32 - 1` by the `u32`
underflow of `max_requests - 1` (a panic under debug assertions); only
checks that find prior state inside an active window are rejected
(`count ≥ 1 > 0 = max_requests` always holds there).  The three parts
exhaust the possible stored states for the key. -/
theorem c6_zero_max_behavior :
    (∀ (cfg : RateLimitConfig) (s : WindowMap) (key : String) (now : Nat) (utc : Int),
        cfg.max_requests = 0 → s key = none → cfg.window ≤ chronoDurMaxNs →
        ∃ info, checkRateLimit cfg s key now utc =
            some (mapInsert s key (now, 1), CheckResult.ok info) ∧
          info.remaining = u32Mod - 1) ∧
    (∀ (cfg : RateLimitConfig) (s : WindowMap) (key : String) (now : Nat) (utc : Int)
        (ws c : Nat),
        cfg.max_requests = 0 → s key = some (ws, c) → cfg.window < now - ws →
        cfg.window ≤ chronoDurMaxNs →
        ∃ info, checkRateLimit cfg s key now utc =
            some (mapInsert s key (now, 1), CheckResult.ok info) ∧
          info.remaining = u32Mod - 1) ∧
    (∀ (cfg : RateLimitConfig) (s : WindowMap) (key : String) (now : Nat) (utc : Int)
        (ws c : Nat),
        cfg.max_requests = 0 → s key = some (ws, c) → now - ws ≤ cfg.window →
        cfg.window ≤ chronoDurMaxNs →
        ∃ rej, checkRateLimit cfg s key now utc = some (s, CheckResult.err rej)) := by
  refine ⟨?_, ?_, ?_⟩
  · intro cfg s key now utc hmax0 hfresh hw
    rw [checkRateLimit_fresh cfg s key now utc hfresh,
      createInfo_eq cfg (sub32 cfg.max_requests 1) now utc hw]
    refine ⟨_, rfl, ?_⟩
    rw [hmax0]
    show sub32 0 1 = u32Mod - 1
    decide
  · intro cfg s key now utc ws c hmax0 hprev hexp hw
    rw [checkRateLimit_expired cfg s key now utc ws c hprev hexp,
      createInfo_eq cfg (sub32 cfg.max_requests 1) now utc hw]
    refine ⟨_, rfl, ?_⟩
    rw [hmax0]
    show sub32 0 1 = u32Mod - 1
    decide
  · intro cfg s key now utc ws c hmax0 hprev hact hw
    exact c3_reject_leaves_state cfg s key now utc ws c hprev hact (by omega) hw

/-- C6 witness: concretely, with limit 0 the first check for "k" is
admitted with remaining `2^32 - 1`; a later check past the window (70 s
after a 60 s window started) is again admitted with remaining `2^32 - 1`;
and an in-window check against state `(0, 1)` is rejected. -/
theorem c6_witness :
    (∃ info,
      checkRateLimit ⟨0, 60000000000, RetryAfterFormat.Seconds, "X-Forwarded-For"⟩
          emptyWindowMap "k" 0 0 =
        some (mapInsert emptyWindowMap "k" (0, 1), CheckResult.ok info) ∧
      info.remaining = u32Mod - 1) ∧
    (∃ info,
      checkRateLimit ⟨0, 60000000000, RetryAfterFormat.Seconds, "X-Forwarded-For"⟩
          (mapInsert emptyWindowMap "k" (0, 1)) "k" 70000000000 0 =
        some (mapInsert (mapInsert emptyWindowMap "k" (0, 1)) "k" (70000000000, 1),
          CheckResult.ok info) ∧
      info.remaining = u32Mod - 1) ∧
    (∃ rej,
      checkRateLimit ⟨0, 60000000000, RetryAfterFormat.Seconds, "X-Forwarded-For"⟩
          (mapInsert emptyWindowMap "k" (0, 1)) "k" 1 0 =
        some (mapInsert emptyWindowMap "k" (0, 1), CheckResult.err rej)) :=
  ⟨c6_zero_max_behavior.1 ⟨0, 60000000000, RetryAfterFormat.Seconds, "X-Forwarded-For"⟩
      emptyWindowMap "k" 0 0 rfl rfl (by decide),
    c6_zero_max_behavior.2.1 ⟨0, 60000000000, RetryAfterFormat.Seconds, "X-Forwarded-For"⟩
      (mapInsert emptyWindowMap "k" (0, 1)) "k" 70000000000 0 0 1 rfl (by decide)
      (by decide) (by decide),
    c6_zero_max_behavior.2.2 ⟨0, 60000000000, RetryAfterFormat.Seconds, "X-Forwarded-For"⟩
      (mapInsert emptyWindowMap "k" (0, 1)) "k" 1 0 0 1 rfl (by decide) (by decide)
      (by decide)⟩

/-- C8: for every `RateLimitInfo` whose `retry_after` string contains a
character invalid for an HTTP header value (such as NUL), the header
codec returns the header-encoding error (`RateLimitError::HeaderError`,
wrapping http's `InvalidHeaderValue`) without panicking, and the header
map is exactly what it was before the call — Retry-After is the first
header inserted and the only one whose value can fail validation, so no
previously inserted header is dropped. -/
theorem c8_invalid_header_value (headers : HeaderMap) (info : RateLimitInfo) (c : Char)
    (hc : c ∈ info.retry_after.data) (hbad : isValidHeaderChar c = false) :
    addRateLimitHeaders headers info = (headers, some RateLimitError.HeaderError) := by
  have hall : info.retry_after.data.all isValidHeaderChar = false := by
    cases hA : info.retry_after.data.all isValidHeaderChar with
    | false => rfl
    | true =>
      have h2 := List.all_eq_true.mp hA c hc
      rw [hbad] at h2
      cases h2
  unfold addRateLimitHeaders headerValueFromStr
  rw [hall]
  simp

/-- C8 witness: a NUL byte in `retry_after` yields the encoding error and
leaves a pre-existing header in place. -/
theorem c8_witness :
    addRateLimitHeaders [("x-powered-by", "warp")]
        ⟨"\x00", 1, 0, 0, RetryAfterFormat.Seconds⟩ =
      ([("x-powered-by", "warp")], some RateLimitError.HeaderError) :=
  c8_invalid_header_value [("x-powered-by", "warp")]
    ⟨"\x00", 1, 0, 0, RetryAfterFormat.Seconds⟩ '\x00' (by decide) (by decide)

/-- Invariant for a fresh key checked repeatedly inside one window: after
`i ≤ max_requests` checks the stored entry is `(times 0, i)` (absent for
`i = 0`) — the window start stays anchored at the first request. -/
lemma runState_key_in_window (cfg : RateLimitConfig) (s : WindowMap) (key : String)
    (times : Nat → Nat) (utc : Nat → Int) (N : Nat)
    (hN : cfg.max_requests = N) (h32 : N < u32Mod) (hw : cfg.window ≤ chronoDurMaxNs)
    (hfresh : s key = none)
    (hwin : ∀ i, i ≤ N → times i ≤ times 0 + cfg.window) :
    ∀ i, i ≤ N → runState cfg key s times utc i key =
      if i = 0 then none else some (times 0, i) := by
  intro i
  induction i with
  | zero =>
    intro _
    simpa [runState] using hfresh
  | succ j ih =>
    intro hle
    rw [if_neg (Nat.succ_ne_zero j)]
    have hj := ih (by omega)
    by_cases hj0 : j = 0
    · subst hj0
      rw [if_pos rfl] at hj
      have hck := checkRateLimit_fresh cfg (runState cfg key s times utc 0) key
        (times 0) (utc 0) hj
      rw [createInfo_eq cfg (sub32 cfg.max_requests 1) (times 0) (utc 0) hw] at hck
      show (match checkRateLimit cfg (runState cfg key s times utc 0) key (times 0) (utc 0) with
        | some (s2, _) => s2
        | none => runState cfg key s times utc 0) key = some (times 0, 1)
      rw [hck]
      simp [mapInsert]
    · rw [if_neg hj0] at hj
      have hexp : ¬ cfg.window < times j - times 0 := by
        have h1 := hwin j (by omega)
        omega
      have hcnt : ¬ cfg.max_requests ≤ j := by
        rw [hN]
        omega
      have hck := checkRateLimit_incr cfg (runState cfg key s times utc j) key
        (times j) (utc j) (times 0) j hj hexp hcnt
      rw [createInfo_eq cfg (sub32 cfg.max_requests ((j + 1) % u32Mod)) (times 0) (utc j) hw]
        at hck
      have hmod : (j + 1) % u32Mod = j + 1 := Nat.mod_eq_of_lt (by omega)
      show (match checkRateLimit cfg (runState cfg key s times utc j) key (times j) (utc j) with
        | some (s2, _) => s2
        | none => runState cfg key s times utc j) key = some (times 0, j + 1)
      rw [hck]
      simp [mapInsert, hmod]

/-- C1: for a fresh key under `max_requests = N > 0`, a serialized
sequence of checks whose times all lie within one window of the first
request admits the first `N` checks with strictly decreasing `remaining`
values `N-1, N-2, …, 0` (check `i`, 0-indexed, has `remaining = N-1-i`),
and rejects the `(N+1)`-th check of the same window. -/
theorem c1_window_admission (cfg : RateLimitConfig) (s : WindowMap) (key : String)
    (times : Nat → Nat) (utc : Nat → Int) (N : Nat)
    (hN : cfg.max_requests = N) (h0 : 0 < N) (h32 : N < u32Mod)
    (hw : cfg.window ≤ chronoDurMaxNs) (hfresh : s key = none)
    (hwin : ∀ i, i ≤ N → times i ≤ times 0 + cfg.window) :
    (∀ i, i < N → ∃ info, runDecision cfg key s times utc i = some (CheckResult.ok info) ∧
        info.remaining = N - 1 - i) ∧
    (∃ rej, runDecision cfg key s times utc N = some (CheckResult.err rej)) := by
  have hstate := runState_key_in_window cfg s key times utc N hN h32 hw hfresh hwin
  constructor
  · intro i hi
    by_cases hi0 : i = 0
    · subst hi0
      have hj := hstate 0 (by omega)
      rw [if_pos rfl] at hj
      unfold runDecision
      rw [checkRateLimit_fresh cfg (runState cfg key s times utc 0) key (times 0) (utc 0) hj,
        createInfo_eq cfg (sub32 cfg.max_requests 1) (times 0) (utc 0) hw]
      refine ⟨_, rfl, ?_⟩
      show sub32 cfg.max_requests 1 = N - 1 - 0
      rw [hN, sub32_eq N 1 h0 h32]
      omega
    · have hj := hstate i (by omega)
      rw [if_neg hi0] at hj
      have hexp : ¬ cfg.window < times i - times 0 := by
        have h1 := hwin i (by omega)
        omega
      have hcnt : ¬ cfg.max_requests ≤ i := by
        rw [hN]
        omega
      unfold runDecision
      rw [checkRateLimit_incr cfg (runState cfg key s times utc i) key (times i) (utc i)
          (times 0) i hj hexp hcnt,
        createInfo_eq cfg (sub32 cfg.max_requests ((i + 1) % u32Mod)) (times 0) (utc i) hw]
      refine ⟨_, rfl, ?_⟩
      have hmod : (i + 1) % u32Mod = i + 1 := Nat.mod_eq_of_lt (by omega)
      show sub32 cfg.max_requests ((i + 1) % u32Mod) = N - 1 - i
      rw [hN, hmod, sub32_eq N (i + 1) (by omega) h32]
      omega
  · have hj := hstate N (by omega)
    rw [if_neg (by omega : ¬ N = 0)] at hj
    have hexp : ¬ cfg.window < times N - times 0 := by
      have h1 := hwin N (by omega)
      omega
    have hcnt : cfg.max_requests ≤ N := by omega
    unfold runDecision
    rw [checkRateLimit_reject cfg (runState cfg key s times utc N) key (times N) (utc N)
        (times 0) N hj hexp hcnt]
    unfold chronoFromStd
    rw [if_pos (show cfg.window - (times N - times 0) ≤ chronoDurMaxNs by omega)]
    exact ⟨_, rfl⟩

/-- C1 witness: limit 2 per 60 s, three immediate checks for a fresh key:
check 0 admitted with remaining 1, check 1 admitted with remaining 0,
check 2 rejected. -/
theorem c1_witness :
    (∃ info,
      runDecision ⟨2, 60000000000, RetryAfterFormat.Seconds, "X-Forwarded-For"⟩ "k"
          emptyWindowMap (fun _ => 0) (fun _ => 0) 0 = some (CheckResult.ok info) ∧
      info.remaining = 2 - 1 - 0) ∧
    (∃ info,
      runDecision ⟨2, 60000000000, RetryAfterFormat.Seconds, "X-Forwarded-For"⟩ "k"
          emptyWindowMap (fun _ => 0) (fun _ => 0) 1 = some (CheckResult.ok info) ∧
      info.remaining = 2 - 1 - 1) ∧
    (∃ rej,
      runDecision ⟨2, 60000000000, RetryAfterFormat.Seconds, "X-Forwarded-For"⟩ "k"
          emptyWindowMap (fun _ => 0) (fun _ => 0) 2 = some (CheckResult.err rej)) := by
  have h := c1_window_admission ⟨2, 60000000000, RetryAfterFormat.Seconds, "X-Forwarded-For"⟩
    emptyWindowMap "k" (fun _ => 0) (fun _ => 0) 2 rfl (by decide) (by decide) (by decide)
    rfl (fun i _ => by simp)
  exact ⟨h.1 0 (by decide), h.1 1 (by decide), h.2⟩

end WarpRateLimit
